import Mathlib

/-!
Verification of AniSystemd (src/main.rs), a supervisor shim that runs a
long-lived worker ("Bot"), sends systemd ready/watchdog signals, watches a
plugin directory, and decides between normal shutdown, propagated worker
failure, and an exit-0 restart request when a plugin artifact changes.

The embedding models:
* the filename filter of the watcher callback (pure);
* the watcher callback's event policy (pure);
* the setup path of `start_plugin_watcher` and its propagation into `main`
  (effect results passed in explicitly);
* the coordination between the tokio `Notify` channel `plugin_changed`, the
  background monitor task that sets `should_restart`, the three-way
  `tokio::select!` race, and the final exit path — as a small-step transition
  system over a finite state, quantified over all interleavings.

A key point of the model: `main` creates TWO waiters on the same `Notify`
value (the spawned monitor task at lines 53-57 and the select arm at line 66),
and the watcher signals with `notify_one`, which wakes exactly one waiter (or
stores a single permit when none waits).  The transition system reflects this:
each raise is routed nondeterministically to one eligible waiter, or stored as
a permit when no waiter is eligible.
-/

namespace AniSystemd

set_option maxRecDepth 8000

/-- Character-level suffix test standing for Rust's `str::ends_with`: a byte
suffix of valid UTF-8 text coincides with a character-sequence suffix. -/
def strEndsWith (s suffix : String) : Bool :=
  suffix.data.isSuffixOf s.data

/-- The six artifact suffixes recognized by the watcher callback, as data
(used to state the `iff one of the six suffixes` reading of the filter). -/
def artifactSuffixes : List String :=
  ["_plugin.so", "_plugin.dll", "_plugin.dylib",
   "_service.so", "_service.dll", "_service.dylib"]

/-- The filename test inside the watcher callback (main.rs lines 125-131):
`file_name.ends_with("_plugin.so") || ... || file_name.ends_with("_service.dylib")`. -/
def isPluginOrServiceName (file_name : String) : Bool :=
  strEndsWith file_name "_plugin.so"
    || strEndsWith file_name "_plugin.dll"
    || strEndsWith file_name "_plugin.dylib"
    || strEndsWith file_name "_service.so"
    || strEndsWith file_name "_service.dll"
    || strEndsWith file_name "_service.dylib"

/-- An event path as the callback sees it: `fileNameStr` is the result of
`path.file_name().and_then(|n| n.to_str())` — `none` when the path has no
final component or the final component is not valid UTF-8. -/
structure FsPath where
  fileNameStr : Option String
deriving DecidableEq

/-- The per-path acceptance test of the callback (main.rs lines 123-133): the
`if let Some(file_name) = ...` arm applies the suffix test, the `else` arm
yields `false`. -/
def pathIsArtifact (p : FsPath) : Bool :=
  match p.fileNameStr with
  | some n => isPluginOrServiceName n
  | none => false

/-- Kinds of a raw `notify` crate event; the callback matches
`Create(_) | Modify(_) | Remove(_)` and ignores every other kind. -/
inductive EventKind
  | create
  | modify
  | remove
  | access
  | anyKind
  | otherKind
deriving DecidableEq

/-- A raw filesystem event: affected paths plus a kind (main.rs `NotifyEvent`). -/
structure WatchEvent where
  paths : List FsPath
  kind : EventKind
deriving DecidableEq

/-- The `is_plugin_or_service` value computed by the callback (main.rs lines
122-133): `event.paths.iter().any(...)`. -/
def eventIsPluginOrService (ev : WatchEvent) : Bool :=
  ev.paths.any pathIsArtifact

/-- Whether the event kind is one the callback reacts to (main.rs lines
136-142): `Create(_) | Modify(_) | Remove(_)` against the catch-all arm. -/
def kindTriggers : EventKind → Bool
  | .create => true
  | .modify => true
  | .remove => true
  | _ => false

/-- Whether the watcher callback calls `notify_one` for a raw event (main.rs
lines 120-143): the path filter must accept at least one path, and the kind
must be create, modify or remove. -/
def watcherRaises (ev : WatchEvent) : Bool :=
  eventIsPluginOrService ev && kindTriggers ev.kind

/-- Result of the opaque worker `bot.start()`: `Ok(())` or an error. -/
inductive WorkerRes
  | ok
  | err
deriving DecidableEq, Fintype

/-- The race outcome of the `tokio::select!` block (main.rs lines 61-80). -/
inductive Outcome
  | workerCompleted (r : WorkerRes)
  | pluginChanged
  | interrupted
deriving DecidableEq, Fintype

/-- State of the coordination between the `Notify` channel, its two waiters
(the spawned monitor task of lines 53-57 and the select plugin arm of line
66), the `should_restart` flag, and the select resolution.

* `permit`: the single stored permit of the `Notify` (at most one).
* `monitorWaiting`: the monitor task is still parked on `notified()`.
* `selectNotified`: the select arm's `notified()` future has been woken.
* `selectPending`: the select has not resolved yet.
* `shouldRestart`: the shared `should_restart` mutex-guarded flag.
* `outcome`: the resolved race outcome, `none` while still racing. -/
structure RaceState where
  permit : Bool
  monitorWaiting : Bool
  selectNotified : Bool
  selectPending : Bool
  shouldRestart : Bool
  outcome : Option Outcome
deriving DecidableEq, Fintype

/-- State at the moment both waiters are installed and the select starts:
no permit, both waiters parked, flag false, race unresolved. -/
def initState : RaceState :=
  ⟨false, true, false, true, false, none⟩

/-- Where a single `notify_one` call is delivered: to the parked monitor
task, to the select arm's `notified()` future, or stored as the permit when
no waiter is eligible. -/
inductive Route
  | toMonitor
  | toSelect
  | toPermit
deriving DecidableEq, Fintype

/-- An atomic scheduling event of an execution:
* `raise r` — the watcher callback calls `notify_one`, delivered per `r`;
* `workerDone r` — `bot.start()` completes with `r` and its select arm wins;
* `interrupt` — `ctrl_c` completes and its select arm wins;
* `pluginWins` — the already-notified plugin arm wins the select. -/
inductive Step
  | raise (r : Route)
  | workerDone (r : WorkerRes)
  | interrupt
  | pluginWins
deriving DecidableEq, Fintype

/-- One transition.  A raise wakes the chosen waiter when that waiter is
actually eligible (`notify_one` prefers waiters and stores at most one permit
otherwise); an ineligible delivery leaves the state unchanged.  Waking the
monitor runs its body (sets `should_restart`, lines 54-57).  A select arm can
win only while the select is pending, and the plugin arm additionally requires
its `notified()` future to have been woken; the plugin arm's body sets
`should_restart` before the select returns (lines 66-75). -/
def step (s : RaceState) : Step → RaceState
  | .raise .toMonitor =>
      if s.monitorWaiting then
        { s with monitorWaiting := false, shouldRestart := true }
      else s
  | .raise .toSelect =>
      if s.selectPending && !s.selectNotified then
        { s with selectNotified := true }
      else s
  | .raise .toPermit =>
      if !s.monitorWaiting && (!s.selectPending || s.selectNotified) && !s.permit then
        { s with permit := true }
      else s
  | .workerDone r =>
      if s.selectPending then
        { s with selectPending := false, outcome := some (.workerCompleted r) }
      else s
  | .interrupt =>
      if s.selectPending then
        { s with selectPending := false, outcome := some .interrupted }
      else s
  | .pluginWins =>
      if s.selectPending && s.selectNotified then
        { s with selectPending := false, outcome := some .pluginChanged,
                 shouldRestart := true }
      else s

/-- The state reached by a schedule of events, starting from `initState`.
The end of the list is the moment `main` reads `should_restart` (line 93). -/
def raceRun (es : List Step) : RaceState :=
  es.foldl step initState

/-- The process exit code determined by the final section of `main` (lines
86-103): a worker error is returned from `main` (non-zero exit, modelled as 1)
before the flag is consulted; every other resolved outcome exits 0, both via
`process::exit(0)` when the flag is set and via `Ok(())` otherwise.  `none`
while the select has not resolved (the process is still running). -/
def raceExit (s : RaceState) : Option Nat :=
  match s.outcome with
  | some (.workerCompleted .err) => some 1
  | some _ => some 0
  | none => none

/-- Whether a scheduling event is a raise of the change channel. -/
def isRaise : Step → Bool
  | .raise _ => true
  | _ => false

/-- Errors of the setup path of `start_plugin_watcher` (main.rs lines
106-152): directory creation, watcher construction, watch registration. -/
inductive SetupError
  | createDirFailed
  | watcherCreateFailed
  | watchFailed
deriving DecidableEq

/-- Results of the effectful setup calls, passed in explicitly: whether the
plugin directory already exists, and whether `create_dir_all`,
`recommended_watcher` and `watcher.watch` succeed. -/
structure SetupEnv where
  dirExists : Bool
  createDirOk : Bool
  watcherOk : Bool
  watchOk : Bool
deriving DecidableEq, Fintype

deriving instance DecidableEq for Except

/-- The setup path of `start_plugin_watcher` (main.rs lines 106-152):
create the directory only when it does not exist (each fallible call's `?`
propagates its error). -/
def startPluginWatcher (env : SetupEnv) : Except SetupError Unit := do
  if !env.dirExists then
    if env.createDirOk then pure () else throw SetupError.createDirFailed
  if env.watcherOk then pure () else throw SetupError.watcherCreateFailed
  if env.watchOk then pure () else throw SetupError.watchFailed

/-- Log lines relevant to the ready/watchdog notify calls (main.rs lines
31-45): the two branches of the READY send, and the warning of a failed
WATCHDOG send. -/
inductive LogMsg
  | readySent
  | readyFailedWarn
  | watchdogFailedWarn
deriving DecidableEq

/-- What an execution of `main` produces. -/
structure MainResult where
  enteredRunning : Bool
  outcome : Option Outcome
  restartFlag : Bool
  exit : Option Nat
  log : List LogMsg
deriving DecidableEq

/-- The pipeline of `main` (main.rs lines 10-103): run watcher setup and
abort with a non-zero exit on its error (the `?` at line 25, before the race
starts); otherwise log the READY send, run the watchdog loop (each failed
tick logs a warning and nothing else), and resolve the race per the schedule. -/
def aniMain (setup : SetupEnv) (readyOk : Bool) (heartbeats : List Bool)
    (es : List Step) : MainResult :=
  match startPluginWatcher setup with
  | .error _ => ⟨false, none, false, some 1, []⟩
  | .ok _ =>
      let readyLog := if readyOk then [LogMsg.readySent] else [LogMsg.readyFailedWarn]
      let hbLog := (heartbeats.filter (fun tick => !tick)).map
        (fun _ => LogMsg.watchdogFailedWarn)
      let s := raceRun es
      ⟨true, s.outcome, s.shouldRestart, raceExit s, readyLog ++ hbLog⟩

/-- Invariant of the race states reachable from `initState`: the restart flag
is set exactly when the plugin arm won or the monitor task was woken, and an
outcome exists only once the select has resolved. -/
def RaceInv (s : RaceState) : Prop :=
  (s.shouldRestart = true ↔
    (s.outcome = some .pluginChanged ∨ s.monitorWaiting = false))
  ∧ (s.selectPending = true → s.outcome = none)

instance (s : RaceState) : Decidable (RaceInv s) := by
  unfold RaceInv; infer_instance

lemma raceInv_init : RaceInv initState := by decide

lemma raceInv_step : ∀ (s : RaceState) (e : Step), RaceInv s → RaceInv (step s e) := by
  decide

lemma raceInv_foldl (es : List Step) :
    ∀ s : RaceState, RaceInv s → RaceInv (es.foldl step s) := by
  induction es with
  | nil => intro s h; exact h
  | cons e es ih => intro s h; exact ih (step s e) (raceInv_step s e h)

lemma raceInv_run (es : List Step) : RaceInv (raceRun es) :=
  raceInv_foldl es initState raceInv_init

lemma noRaise_step : ∀ (s : RaceState) (e : Step), isRaise e = false →
    s.shouldRestart = false → s.selectNotified = false →
    (step s e).shouldRestart = false ∧ (step s e).selectNotified = false := by
  decide

lemma noRaise_foldl (es : List Step) :
    ∀ s : RaceState, (∀ e ∈ es, isRaise e = false) →
    s.shouldRestart = false → s.selectNotified = false →
    (es.foldl step s).shouldRestart = false ∧ (es.foldl step s).selectNotified = false := by
  induction es with
  | nil => intro s _ h1 h2; exact ⟨h1, h2⟩
  | cons e es ih =>
      intro s h h1 h2
      have hs := noRaise_step s e (h e (List.mem_cons_self e es)) h1 h2
      exact ih (step s e) (fun x hx => h x (List.mem_cons_of_mem e hx)) hs.1 hs.2

lemma noRaise_run (es : List Step) (h : ∀ e ∈ es, isRaise e = false) :
    (raceRun es).shouldRestart = false :=
  (noRaise_foldl es initState h rfl rfl).1

lemma outcome_step (s : RaceState) (e : Step) (hinv : RaceInv s)
    (h : s.outcome ≠ none) : (step s e).outcome = s.outcome := by
  revert hinv h
  revert s e
  decide

lemma outcome_foldl (more : List Step) :
    ∀ (s : RaceState) (o : Outcome), RaceInv s → s.outcome = some o →
    (more.foldl step s).outcome = some o := by
  induction more with
  | nil => intro s o _ h; exact h
  | cons e es ih =>
      intro s o hinv h
      have he : (step s e).outcome = some o := by
        rw [outcome_step s e hinv (by simp [h])]; exact h
      exact ih (step s e) o (raceInv_step s e hinv) he

/-- C1 (amended): in every execution in which the plugin arm of the select
wins the race (Outcome = PluginChanged), the restart flag is true and the
process exits with code 0. -/
theorem plugin_arm_win_forces_restart_exit0 (es : List Step)
    (h : (raceRun es).outcome = some Outcome.pluginChanged) :
    (raceRun es).shouldRestart = true ∧ raceExit (raceRun es) = some 0 := by
  refine ⟨(raceInv_run es).1.mpr (Or.inl h), ?_⟩
  simp [raceExit, h]

/-- Witness for C1's amended theorem: the schedule where the raise reaches
the select arm and the plugin arm then wins. -/
theorem plugin_arm_win_witness :
    (raceRun [Step.raise Route.toSelect, Step.pluginWins]).shouldRestart = true ∧
    raceExit (raceRun [Step.raise Route.toSelect, Step.pluginWins]) = some 0 :=
  plugin_arm_win_forces_restart_exit0 [Step.raise Route.toSelect, Step.pluginWins]
    (by decide)

/-- Counterexample to C1 as stated: a single raise of the change channel is
consumed by the background monitor task (the second waiter on the same
`Notify`), the select arm is never woken, and the race later resolves to
`WorkerCompleted(Ok)` — not `PluginChanged` — after continuing to wait on the
worker (the outcome is still `none` right after the raise). -/
theorem single_raise_lost_to_monitor :
    (raceRun [Step.raise Route.toMonitor]).outcome = none ∧
    (raceRun [Step.raise Route.toMonitor, Step.workerDone WorkerRes.ok]).outcome
      = some (Outcome.workerCompleted WorkerRes.ok) ∧
    (raceRun [Step.raise Route.toMonitor, Step.workerDone WorkerRes.ok]).outcome
      ≠ some Outcome.pluginChanged := by
  decide

/-- C2 (amended): in every reachable final state, the restart flag is true
exactly when the outcome is PluginChanged or the background monitor task was
woken by a plugin-change raise. -/
theorem restart_flag_iff_plugin_or_monitor (es : List Step) :
    (raceRun es).shouldRestart = true ↔
      ((raceRun es).outcome = some Outcome.pluginChanged ∨
        (raceRun es).monitorWaiting = false) :=
  (raceInv_run es).1

/-- Counterexample to C2 as stated: one raise delivered to the monitor task
followed by a winning interrupt arm ends with RestartFlag = true under
Outcome = Interrupted. -/
theorem restart_flag_without_plugin_outcome :
    (raceRun [Step.raise Route.toMonitor, Step.interrupt]).outcome
      = some Outcome.interrupted ∧
    (raceRun [Step.raise Route.toMonitor, Step.interrupt]).shouldRestart = true := by
  decide

/-- C3: when the worker completes with an error before any plugin change, the
outcome is WorkerCompleted(Err), the restart flag is false and the exit code
is non-zero; moreover a worker error forces a non-zero exit in every
execution, whatever the restart flag. -/
theorem worker_error_overrides_restart :
    (∀ es : List Step, (∀ e ∈ es, isRaise e = false) →
        (raceRun es).outcome = some (Outcome.workerCompleted WorkerRes.err) →
        (raceRun es).shouldRestart = false ∧ raceExit (raceRun es) = some 1)
    ∧ (∀ es : List Step,
        (raceRun es).outcome = some (Outcome.workerCompleted WorkerRes.err) →
        raceExit (raceRun es) = some 1) := by
  constructor
  · intro es hnr h
    exact ⟨noRaise_run es hnr, by simp [raceExit, h]⟩
  · intro es h
    simp [raceExit, h]

/-- Witness for C3: the schedule where the worker fails with no raise at all. -/
theorem worker_error_witness :
    (raceRun [Step.workerDone WorkerRes.err]).shouldRestart = false ∧
    raceExit (raceRun [Step.workerDone WorkerRes.err]) = some 1 :=
  worker_error_overrides_restart.1 [Step.workerDone WorkerRes.err]
    (by decide) (by decide)

/-- C4 (amended): a resolved outcome is never overwritten by later scheduling
(no second Outcome), the monitor waiter unblocks at most once, and once both
waiters have been woken a further raise changes nothing observable (at most
the stored permit). -/
theorem raise_idempotence_per_waiter :
    (∀ (es more : List Step) (o : Outcome), (raceRun es).outcome = some o →
        (raceRun (es ++ more)).outcome = some o)
    ∧ (∀ (s : RaceState) (r : Route), s.monitorWaiting = false →
        (step s (Step.raise r)).monitorWaiting = false)
    ∧ (∀ (s : RaceState) (r : Route), s.monitorWaiting = false →
        s.selectNotified = true →
        ((step s (Step.raise r)).monitorWaiting = false ∧
         (step s (Step.raise r)).selectNotified = true ∧
         (step s (Step.raise r)).shouldRestart = s.shouldRestart ∧
         (step s (Step.raise r)).outcome = s.outcome)) := by
  refine ⟨?_, by decide, by decide⟩
  intro es more o h
  rw [raceRun, List.foldl_append]
  exact outcome_foldl more (raceRun es) o (raceInv_run es) h

/-- Witness for C4's amended theorem: a resolved PluginChanged outcome
survives a later worker completion and a later raise. -/
theorem raise_idempotence_witness :
    (raceRun ([Step.raise Route.toSelect, Step.pluginWins] ++
        [Step.workerDone WorkerRes.ok, Step.raise Route.toPermit])).outcome
      = some Outcome.pluginChanged :=
  raise_idempotence_per_waiter.1 [Step.raise Route.toSelect, Step.pluginWins]
    [Step.workerDone WorkerRes.ok, Step.raise Route.toPermit]
    Outcome.pluginChanged (by decide)

/-- Counterexample to C4 as stated: after a first raise has already been
observed (the monitor waiter woke and set the flag), a second raise is not a
no-op — it wakes the select arm and enables the PluginChanged outcome, so the
final states with and without the second raise differ. -/
theorem second_raise_has_effect :
    (raceRun [Step.raise Route.toMonitor]).shouldRestart = true ∧
    (raceRun [Step.raise Route.toMonitor, Step.raise Route.toSelect,
        Step.pluginWins]).outcome = some Outcome.pluginChanged ∧
    (raceRun [Step.raise Route.toMonitor, Step.pluginWins]).outcome = none ∧
    raceRun [Step.raise Route.toMonitor, Step.raise Route.toSelect, Step.pluginWins]
      ≠ raceRun [Step.raise Route.toMonitor, Step.pluginWins] := by
  decide

/-- C5: the watcher's filename filter accepts a name exactly when it ends
with one of the six recognized suffixes, and the spec's four examples
evaluate as stated. -/
theorem artifact_filter_iff_suffix_list :
    (∀ name : String, isPluginOrServiceName name = true ↔
        ∃ suffix ∈ artifactSuffixes, strEndsWith name suffix = true)
    ∧ isPluginOrServiceName "foo_plugin.so" = true
    ∧ isPluginOrServiceName "foo_service.dylib" = true
    ∧ isPluginOrServiceName "foo.so" = false
    ∧ isPluginOrServiceName "foo_plugin.txt" = false := by
  refine ⟨fun name => ?_, by decide, by decide, by decide, by decide⟩
  simp [isPluginOrServiceName, artifactSuffixes]
  tauto

/-- C6: when the interrupt arm wins and no raise of the change channel ever
happened, the outcome is Interrupted, the restart flag is false and the exit
code is 0. -/
theorem interrupt_no_restart_exit0 (es : List Step)
    (hnr : ∀ e ∈ es, isRaise e = false)
    (h : (raceRun es).outcome = some Outcome.interrupted) :
    (raceRun es).shouldRestart = false ∧ raceExit (raceRun es) = some 0 := by
  refine ⟨noRaise_run es hnr, ?_⟩
  simp [raceExit, h]

/-- Witness for C6: the schedule consisting of a single winning interrupt. -/
theorem interrupt_witness :
    (raceRun [Step.interrupt]).shouldRestart = false ∧
    raceExit (raceRun [Step.interrupt]) = some 0 :=
  interrupt_no_restart_exit0 [Step.interrupt] (by decide) (by decide)

/-- C7: a raw event raises the change channel exactly when some affected path
passes the artifact filter and the kind is create, modify or remove; an event
whose paths all fail the filter never raises, whatever its kind. -/
theorem watcher_event_filter :
    (∀ ev : WatchEvent, (∃ p ∈ ev.paths, pathIsArtifact p = true) →
        (watcherRaises ev = true ↔
          (ev.kind = EventKind.create ∨ ev.kind = EventKind.modify ∨
            ev.kind = EventKind.remove)))
    ∧ (∀ ev : WatchEvent, (∀ p ∈ ev.paths, pathIsArtifact p = false) →
        watcherRaises ev = false) := by
  constructor
  · intro ev hp
    have hacc : eventIsPluginOrService ev = true := by
      simpa [eventIsPluginOrService, List.any_eq_true] using hp
    cases hk : ev.kind <;>
      simp [watcherRaises, hacc, kindTriggers, hk]
  · intro ev hp
    have hacc : eventIsPluginOrService ev = false := by
      simp [eventIsPluginOrService, List.any_eq_false]
      intro p hmem
      simp [hp p hmem]
    simp [watcherRaises, hacc]

/-- Witness for C7: a create event on `x_plugin.so` raises, and the same
event with a metadata-only kind does not. -/
theorem watcher_event_witness :
    watcherRaises ⟨[⟨some "x_plugin.so"⟩], EventKind.create⟩ = true ∧
    watcherRaises ⟨[⟨some "x_plugin.so"⟩], EventKind.access⟩ = false := by
  constructor
  · exact (watcher_event_filter.1 ⟨[⟨some "x_plugin.so"⟩], EventKind.create⟩
      ⟨⟨some "x_plugin.so"⟩, by decide, by decide⟩).mpr (Or.inl rfl)
  · have := watcher_event_filter.1 ⟨[⟨some "x_plugin.so"⟩], EventKind.access⟩
      ⟨⟨some "x_plugin.so"⟩, by decide, by decide⟩
    cases hr : watcherRaises ⟨[⟨some "x_plugin.so"⟩], EventKind.access⟩
    · rfl
    · rcases this.mp hr with hc | hc | hc <;> cases hc

/-- C8: setup treats a missing directory as something to create (absence is
not an error and an existing directory never consults the create result),
while a failed directory creation, watcher construction or watch registration
each abort `main` with a non-zero exit before the race ever starts. -/
theorem watcher_setup_errors_fatal :
    (∀ env : SetupEnv, env.watcherOk = true → env.watchOk = true →
        (env.dirExists = true ∨ env.createDirOk = true) →
        startPluginWatcher env = Except.ok ())
    ∧ (∀ env : SetupEnv, env.dirExists = true → ∀ b : Bool,
        startPluginWatcher { env with createDirOk := b } = startPluginWatcher env)
    ∧ (∀ env : SetupEnv, env.dirExists = false → env.createDirOk = false →
        startPluginWatcher env = Except.error SetupError.createDirFailed)
    ∧ (∀ env : SetupEnv, env.watcherOk = false →
        (env.dirExists = true ∨ env.createDirOk = true) →
        startPluginWatcher env = Except.error SetupError.watcherCreateFailed)
    ∧ (∀ env : SetupEnv, env.watchOk = false → env.watcherOk = true →
        (env.dirExists = true ∨ env.createDirOk = true) →
        startPluginWatcher env = Except.error SetupError.watchFailed)
    ∧ (∀ (env : SetupEnv) (ready : Bool) (hbs : List Bool) (es : List Step)
        (e : SetupError), startPluginWatcher env = Except.error e →
        (aniMain env ready hbs es).enteredRunning = false ∧
          (aniMain env ready hbs es).outcome = none ∧
          (aniMain env ready hbs es).exit = some 1) := by
  refine ⟨by decide, by decide, by decide, by decide, by decide, ?_⟩
  intro env ready hbs es e h
  simp [aniMain, h]

/-- Witness for C8: a missing directory whose creation fails aborts `main`
before the race. -/
theorem watcher_setup_witness :
    (aniMain ⟨false, false, true, true⟩ true [] []).enteredRunning = false ∧
    (aniMain ⟨false, false, true, true⟩ true [] []).outcome = none ∧
    (aniMain ⟨false, false, true, true⟩ true [] []).exit = some 1 :=
  watcher_setup_errors_fatal.2.2.2.2.2 ⟨false, false, true, true⟩ true [] []
    SetupError.createDirFailed rfl

/-- C9: two executions of `main` that differ only in which watchdog
heartbeats fail produce the same outcome, restart flag and exit code; and
when the race runs, every failed heartbeat is logged as a warning. -/
theorem watchdog_failures_never_affect_result :
    (∀ (env : SetupEnv) (ready : Bool) (hb1 hb2 : List Bool) (es : List Step),
        (aniMain env ready hb1 es).outcome = (aniMain env ready hb2 es).outcome ∧
        (aniMain env ready hb1 es).restartFlag = (aniMain env ready hb2 es).restartFlag ∧
        (aniMain env ready hb1 es).exit = (aniMain env ready hb2 es).exit)
    ∧ (∀ (env : SetupEnv) (ready : Bool) (hb : List Bool) (es : List Step),
        startPluginWatcher env = Except.ok () → false ∈ hb →
        LogMsg.watchdogFailedWarn ∈ (aniMain env ready hb es).log) := by
  constructor
  · intro env ready hb1 hb2 es
    cases h : startPluginWatcher env <;> simp [aniMain, h]
  · intro env ready hb es hok hmem
    have hmap : LogMsg.watchdogFailedWarn ∈
        (hb.filter (fun tick => !tick)).map (fun _ => LogMsg.watchdogFailedWarn) :=
      List.mem_map.mpr ⟨false, List.mem_filter.mpr ⟨hmem, rfl⟩, rfl⟩
    simp only [aniMain, hok]
    exact List.mem_append.mpr (Or.inr hmap)

/-- C10: the path filter is total and never raises on a degenerate path: a
path without a UTF-8 final component is rejected, and an event all of whose
paths lack one never raises the change channel. -/
theorem path_filter_total :
    (∀ p : FsPath, p.fileNameStr = none → pathIsArtifact p = false)
    ∧ (∀ ev : WatchEvent, (∀ p ∈ ev.paths, p.fileNameStr = none) →
        watcherRaises ev = false) := by
  constructor
  · intro p h
    simp [pathIsArtifact, h]
  · intro ev h
    have hacc : eventIsPluginOrService ev = false := by
      simp [eventIsPluginOrService, List.any_eq_false]
      intro p hmem
      simp [pathIsArtifact, h p hmem]
    simp [watcherRaises, hacc]

end AniSystemd
